import Mathlib

/-!
# libnymea-networkmanager: Bluetooth network service and wireless access point

Shallow embedding of

* `bluetooth/networkservice.h`: the command and response enumerations of
  `NetworkService` are taken from the header.  The bodies of its member
  functions live in `networkservice.cpp`, which is not among the sources; they
  are modelled from the specification and marked as such.
* `wirelessaccesspoint.cpp`: constructor, setters, getters and
  `onPropertiesChanged` of `WirelessAccessPoint`, with the emitted Qt signals
  recorded in an explicit log.
-/

/-! ## Data model of `NetworkService` -/

/-- Content of a `QByteArray`: each byte is held as its unsigned numeric value. -/
abbrev QByteArray := List (Fin 256)

/-- The enum `NetworkService::NetworkServiceCommand` (networkservice.h, 37-43). -/
inductive NetworkServiceCommand where
  | NetworkServiceCommandInvalid
  | NetworkServiceCommandEnableNetworking
  | NetworkServiceCommandDisableNetworking
  | NetworkServiceCommandEnableWireless
  | NetworkServiceCommandDisableWireless
  deriving DecidableEq, Repr

/-- The enum `NetworkService::NetworkServiceResponse` (networkservice.h, 46-52). -/
inductive NetworkServiceResponse where
  | NetworkServiceResponseSuccess
  | NetworkServiceResponseIvalidValue
  | NetworkServiceResponseNetworkManagerNotAvailable
  | NetworkServiceResponseWirelessNotAvailable
  | NetworkServiceResponseUnknownError
  deriving DecidableEq, Repr

open NetworkServiceCommand NetworkServiceResponse

/-- Numeric value of each command enumerator, as written in the header. -/
def NetworkServiceCommand.toInt : NetworkServiceCommand → Int
  | NetworkServiceCommandInvalid => -1
  | NetworkServiceCommandEnableNetworking => 0x00
  | NetworkServiceCommandDisableNetworking => 0x01
  | NetworkServiceCommandEnableWireless => 0x02
  | NetworkServiceCommandDisableWireless => 0x03

/-- Numeric value of each response enumerator, as written in the header. -/
def NetworkServiceResponse.toNat : NetworkServiceResponse → Nat
  | NetworkServiceResponseSuccess => 0x00
  | NetworkServiceResponseIvalidValue => 0x01
  | NetworkServiceResponseNetworkManagerNotAvailable => 0x02
  | NetworkServiceResponseWirelessNotAvailable => 0x03
  | NetworkServiceResponseUnknownError => 0x04

/-- The four commands that have a wire value, in the order of the header. -/
def wireCommands : List NetworkServiceCommand :=
  [NetworkServiceCommandEnableNetworking, NetworkServiceCommandDisableNetworking,
   NetworkServiceCommandEnableWireless, NetworkServiceCommandDisableWireless]

/-- The five responses, in the order of the header. -/
def allResponses : List NetworkServiceResponse :=
  [NetworkServiceResponseSuccess, NetworkServiceResponseIvalidValue,
   NetworkServiceResponseNetworkManagerNotAvailable,
   NetworkServiceResponseWirelessNotAvailable, NetworkServiceResponseUnknownError]

/-- The asynchronous requests the backend facade accepts (spec section 6). -/
inductive BackendAction where
  | enableNetworking
  | disableNetworking
  | enableWireless
  | disableWireless
  deriving DecidableEq, Repr

/-- Modelled from the spec: the backend facade `NetworkManager` (networkmanager.h
and networkmanager.cpp are not among the sources).  It carries the capability
snapshot read when a command is processed (`isAvailable()`,
`isWirelessAvailable()`), the requests dispatched to it so far, oldest first,
and `dispatchFails`: whether the dispatch of an action fails unexpectedly, the
condition of spec 4.2, 7 and 9 that the facade signals itself and that the
capability snapshot does not predict. -/
structure NetworkManager where
  available : Bool
  wirelessAvailable : Bool
  requests : List BackendAction
  dispatchFails : Bool
  deriving DecidableEq, Repr

/-- Modelled from the spec: the state of a `NetworkService` object.  The header
declares `m_service` and `m_networkManager`; of the service only the values
written to the response characteristic, oldest first, are kept. -/
structure NetworkService where
  m_networkManager : NetworkManager
  responses : List QByteArray
  deriving DecidableEq, Repr

/-! ## Member functions of `NetworkService` (bodies modelled from the spec) -/

/-- Modelled from the spec: the body of `NetworkService::verifyCommand`
(networkservice.cpp is not among the sources).  Spec 4.1: decoding succeeds
only if the payload is exactly one byte long and the numeric value of that byte
matches one of the four defined command codes; any other length, or a value
outside the defined set, yields `Invalid`. -/
def verifyCommand (commandData : QByteArray) : NetworkServiceCommand :=
  match commandData with
  | [b] =>
    match wireCommands.find? (fun c => c.toInt == (b.val : Int)) with
    | some c => c
    | none => NetworkServiceCommandInvalid
  | _ => NetworkServiceCommandInvalid

/-- Modelled from the spec: the payload `NetworkService::sendResponse` writes
(networkservice.cpp is not among the sources).  Spec 4.3: a single byte holding
the numeric code of the response. -/
def responseByteArray (response : NetworkServiceResponse) : QByteArray :=
  [Fin.ofNat response.toNat]

/-- Modelled from the spec: the body of `NetworkService::sendResponse`
(networkservice.cpp is not among the sources): the encoded byte becomes the
next value of the response characteristic. -/
def sendResponse (response : NetworkServiceResponse) (svc : NetworkService) : NetworkService :=
  { svc with responses := svc.responses ++ [responseByteArray response] }

/-- Modelled from the spec: the client-side decoding of a response byte by its
numeric code (spec section 8, round trip); the client is not part of the
repository. -/
def decodeResponse (b : Fin 256) : Option NetworkServiceResponse :=
  allResponses.find? (fun r => r.toNat == b.val)

/-- Modelled from the spec: `NetworkManager::NetworkManagerState` is declared in
networkmanager.h, which is not among the sources, and the spec names its
enumerators without their values.  A state is represented by the numeric value
of its enumerator. -/
structure NetworkManagerState where
  value : Int
  deriving DecidableEq, Repr

/-- Modelled from the spec: the body of
`NetworkService::getNetworkManagerStateByteArray` (networkservice.cpp is not
among the sources).  Spec 4.4: one byte for the manager state, the direct
enum-to-byte cast. -/
def getNetworkManagerStateByteArray (state : NetworkManagerState) : QByteArray :=
  [Fin.ofNat (state.value % 256).toNat]

/-! ## `WirelessAccessPoint` (wirelessaccesspoint.cpp) -/

/-- The Qt signals of `WirelessAccessPoint` that the source emits. -/
inductive WirelessAccessPointSignal where
  | signalStrengthChanged
  deriving DecidableEq, Repr

/-- A `QVariantMap` as delivered with `PropertiesChanged`: keys with their
values, each value held as the result of `QVariant::toInt()`. -/
abbrev QVariantMap := List (String × Int)

/-- The method `QVariantMap::contains`. -/
def QVariantMap.contains (properties : QVariantMap) (key : String) : Bool :=
  properties.any (fun e => e.1 == key)

/-- The call `QVariantMap::value(key).toInt()`; a missing key gives a
default-constructed `QVariant`, whose `toInt()` is 0. -/
def QVariantMap.value (properties : QVariantMap) (key : String) : Int :=
  match properties.lookup key with
  | some v => v
  | none => 0

/-- The D-Bus access point interface the constructor reads: whether it is valid
and the properties it reads, each already converted as the constructor converts
it (`toString`, `toDouble`, `toInt`, `toUInt`). -/
structure AccessPointInterface where
  isValid : Bool
  Ssid : String
  HwAddress : String
  Frequency : ℚ
  Strength : Int
  Flags : Nat
  WpaFlags : Nat
  RsnFlags : Nat
  deriving DecidableEq, Repr

/-- The members of a `WirelessAccessPoint` object together with the log of the
signals it has emitted, oldest first.  The frequency, a `double` in the source,
is held as a rational number. -/
structure WirelessAccessPoint where
  m_objectPath : String
  m_ssid : String
  m_macAddress : String
  m_frequency : ℚ
  m_signalStrength : Int
  m_isProtected : Bool
  m_capabilities : Nat
  m_wpaFlags : Nat
  m_rsnFlags : Nat
  emitted : List WirelessAccessPointSignal
  deriving DecidableEq, Repr

namespace WirelessAccessPoint

/-- Lines 94-97. -/
def setSsid (ap : WirelessAccessPoint) (ssid : String) : WirelessAccessPoint :=
  { ap with m_ssid := ssid }

/-- Lines 105-108. -/
def setMacAddress (ap : WirelessAccessPoint) (macAddress : String) : WirelessAccessPoint :=
  { ap with m_macAddress := macAddress }

/-- Lines 116-119. -/
def setFrequency (ap : WirelessAccessPoint) (frequency : ℚ) : WirelessAccessPoint :=
  { ap with m_frequency := frequency }

/-- Lines 122-125. -/
def signalStrength (ap : WirelessAccessPoint) : Int :=
  ap.m_signalStrength

/-- Lines 127-131: the member is assigned and the signal is emitted. -/
def setSignalStrength (ap : WirelessAccessPoint) (signalStrength : Int) : WirelessAccessPoint :=
  { ap with
    m_signalStrength := signalStrength
    emitted := ap.emitted ++ [WirelessAccessPointSignal.signalStrengthChanged] }

/-- Lines 133-136. -/
def setWpaFlags (ap : WirelessAccessPoint) (wpaFlags : Nat) : WirelessAccessPoint :=
  { ap with m_wpaFlags := wpaFlags }

/-- Lines 138-141. -/
def setRsnFlags (ap : WirelessAccessPoint) (rsnFlags : Nat) : WirelessAccessPoint :=
  { ap with m_rsnFlags := rsnFlags }

/-- Lines 143-146. -/
def setIsProtected (ap : WirelessAccessPoint) (isProtected : Bool) : WirelessAccessPoint :=
  { ap with m_isProtected := isProtected }

/-- Lines 149-152. -/
def isProtected (ap : WirelessAccessPoint) : Bool :=
  ap.m_isProtected

/-- Lines 165-168. -/
def wpaFlags (ap : WirelessAccessPoint) : Nat :=
  ap.m_wpaFlags

/-- Lines 176-179. -/
def rsnFlags (ap : WirelessAccessPoint) : Nat :=
  ap.m_rsnFlags

/-- The constructor, lines 55-80.  `init` is the object after its member
initialisers have run (the defaults are in wirelessaccesspoint.h, which is not
among the sources); an invalid interface leaves it as it is. -/
def create (init : WirelessAccessPoint) (accessPointInterface : AccessPointInterface) :
    WirelessAccessPoint :=
  if !accessPointInterface.isValid then init
  else
    let ap := init.setSsid accessPointInterface.Ssid
    let ap := ap.setMacAddress accessPointInterface.HwAddress
    let ap := ap.setFrequency (accessPointInterface.Frequency / 1000)
    let ap := ap.setSignalStrength accessPointInterface.Strength
    let ap := { ap with m_capabilities := accessPointInterface.Flags }
    let ap := ap.setWpaFlags accessPointInterface.WpaFlags
    let ap := ap.setRsnFlags accessPointInterface.RsnFlags
    ap.setIsProtected (ap.m_rsnFlags != 0)

/-- Lines 181-186. -/
def onPropertiesChanged (ap : WirelessAccessPoint) (properties : QVariantMap) :
    WirelessAccessPoint :=
  if QVariantMap.contains properties "Strength" then
    ap.setSignalStrength (QVariantMap.value properties "Strength")
  else ap

/-- The number of `signalStrengthChanged` emissions recorded so far. -/
def signalStrengthChangedCount (ap : WirelessAccessPoint) : Nat :=
  ap.emitted.count WirelessAccessPointSignal.signalStrengthChanged

end WirelessAccessPoint

/-- A freshly allocated access point object: empty strings, zero numbers, no
signal emitted yet. -/
def blankAccessPoint : WirelessAccessPoint :=
  { m_objectPath := "/org/freedesktop/NetworkManager/AccessPoint/1"
    m_ssid := ""
    m_macAddress := ""
    m_frequency := 0
    m_signalStrength := 0
    m_isProtected := false
    m_capabilities := 0
    m_wpaFlags := 0
    m_rsnFlags := 0
    emitted := [] }

/-- A valid interface of an access point that advertises WPA with a pre-shared
key (pairwise TKIP 0x4, group TKIP 0x40, key management PSK 0x100 in the
NetworkManager 802.11 security flags) and no RSN security. -/
def wpaOnlyInterface : AccessPointInterface :=
  { isValid := true
    Ssid := "legacy-wpa"
    HwAddress := "00:11:22:33:44:55"
    Frequency := 2412
    Strength := 42
    Flags := 1
    WpaFlags := 0x144
    RsnFlags := 0 }

/-- A valid interface whose `Strength` property is 150. -/
def loudInterface : AccessPointInterface :=
  { wpaOnlyInterface with Strength := 150 }

/-! ## Helper lemmas -/

theorem verifyCommand_singleton (v : Fin 256) :
    verifyCommand [v] =
      if v.val = 0 then NetworkServiceCommandEnableNetworking
      else if v.val = 1 then NetworkServiceCommandDisableNetworking
      else if v.val = 2 then NetworkServiceCommandEnableWireless
      else if v.val = 3 then NetworkServiceCommandDisableWireless
      else NetworkServiceCommandInvalid := by
  simp only [verifyCommand, wireCommands, List.find?, NetworkServiceCommand.toInt]
  by_cases h0 : v.val = 0
  · simp [h0]
  by_cases h1 : v.val = 1
  · simp [h1]
  by_cases h2 : v.val = 2
  · simp [h2]
  by_cases h3 : v.val = 3
  · simp [h3]
  have e0 : ((0 : Int) == (v.val : Int)) = false := by
    simp only [beq_eq_false_iff_ne, ne_eq]; omega
  have e1 : ((1 : Int) == (v.val : Int)) = false := by
    simp only [beq_eq_false_iff_ne, ne_eq]; omega
  have e2 : ((2 : Int) == (v.val : Int)) = false := by
    simp only [beq_eq_false_iff_ne, ne_eq]; omega
  have e3 : ((3 : Int) == (v.val : Int)) = false := by
    simp only [beq_eq_false_iff_ne, ne_eq]; omega
  simp [h0, h1, h2, h3, e0, e1, e2, e3]

theorem byte_eq_iff (v : Fin 256) (n : Nat) (hn : n < 256) :
    v = (⟨n, hn⟩ : Fin 256) ↔ v.val = n := by
  constructor
  · intro h; rw [h]
  · intro h; exact Fin.ext h

/-! ## Theorems about `NetworkService` -/

/-- C1: the decoded command is EnableNetworking, DisableNetworking,
EnableWireless or DisableWireless exactly when the byte array is the single
byte 0x00, 0x01, 0x02 or 0x03 respectively, and it is Invalid for every other
byte array; the empty array, a two-byte array and the single byte 0xFF are
decoded as Invalid. -/
theorem verifyCommand_decodes (b : QByteArray) :
    (verifyCommand b = NetworkServiceCommandEnableNetworking ↔ b = [0x00]) ∧
    (verifyCommand b = NetworkServiceCommandDisableNetworking ↔ b = [0x01]) ∧
    (verifyCommand b = NetworkServiceCommandEnableWireless ↔ b = [0x02]) ∧
    (verifyCommand b = NetworkServiceCommandDisableWireless ↔ b = [0x03]) ∧
    (verifyCommand b = NetworkServiceCommandInvalid ↔
      ¬ (b.length = 1 ∧ (b = [0x00] ∨ b = [0x01] ∨ b = [0x02] ∨ b = [0x03]))) ∧
    verifyCommand [] = NetworkServiceCommandInvalid ∧
    verifyCommand [0xFF] = NetworkServiceCommandInvalid ∧
    verifyCommand [0x00, 0x01] = NetworkServiceCommandInvalid := by
  have hrest : verifyCommand [] = NetworkServiceCommandInvalid ∧
      verifyCommand [0xFF] = NetworkServiceCommandInvalid ∧
      verifyCommand [0x00, 0x01] = NetworkServiceCommandInvalid := by
    refine ⟨rfl, ?_, rfl⟩
    rw [verifyCommand_singleton]; decide
  match b with
  | [] => refine ⟨?_, ?_, ?_, ?_, ?_, hrest⟩ <;> simp [verifyCommand]
  | [v] =>
    have k0 : v = (0 : Fin 256) ↔ v.val = 0 := byte_eq_iff v 0 (by decide)
    have k1 : v = (1 : Fin 256) ↔ v.val = 1 := byte_eq_iff v 1 (by decide)
    have k2 : v = (2 : Fin 256) ↔ v.val = 2 := byte_eq_iff v 2 (by decide)
    have k3 : v = (3 : Fin 256) ↔ v.val = 3 := byte_eq_iff v 3 (by decide)
    rw [verifyCommand_singleton]
    simp only [List.cons.injEq, and_true, List.length_singleton, true_and, k0, k1, k2, k3]
    refine ⟨?_, ?_, ?_, ?_, ?_, hrest⟩ <;> split_ifs <;> simp_all
  | v :: w :: rest => refine ⟨?_, ?_, ?_, ?_, ?_, hrest⟩ <;> simp [verifyCommand]

/-- C4: each of the five responses is encoded as exactly one byte, 0x00 for
Success, 0x01 for InvalidValue, 0x02 for NetworkManagerNotAvailable, 0x03 for
WirelessNotAvailable and 0x04 for UnknownError; the encoding is injective and
decoding the byte by its numeric code gives the response back. -/
theorem responseByteArray_roundtrip :
    responseByteArray NetworkServiceResponseSuccess = [0x00] ∧
    responseByteArray NetworkServiceResponseIvalidValue = [0x01] ∧
    responseByteArray NetworkServiceResponseNetworkManagerNotAvailable = [0x02] ∧
    responseByteArray NetworkServiceResponseWirelessNotAvailable = [0x03] ∧
    responseByteArray NetworkServiceResponseUnknownError = [0x04] ∧
    Function.Injective responseByteArray ∧
    (∀ r, ∃ b, responseByteArray r = [b] ∧ b.val = r.toNat ∧ decodeResponse b = some r) ∧
    (∀ r svc, (sendResponse r svc).responses = svc.responses ++ [responseByteArray r]) := by
  refine ⟨rfl, rfl, rfl, rfl, rfl, ?_, ?_, ?_⟩
  · intro r s h
    cases r <;> cases s <;> first | rfl | exact absurd h (by decide)
  · intro r
    cases r <;> exact ⟨_, rfl, rfl, rfl⟩
  · intro r svc
    rfl

/-- The manager-state byte array has length exactly 1 and its byte is the
numeric cast of the enumerator value, that is the value modulo 256. -/
theorem getNetworkManagerStateByteArray_length_cast (s : NetworkManagerState) :
    (getNetworkManagerStateByteArray s).length = 1 ∧
    (getNetworkManagerStateByteArray s).map (fun b => (b.val : Int)) = [s.value % 256] := by
  refine ⟨rfl, ?_⟩
  simp only [getNetworkManagerStateByteArray, List.map_cons, List.map_nil, Fin.ofNat,
    List.cons.injEq, and_true]
  omega

/-! ## Theorems about `WirelessAccessPoint` -/

open WirelessAccessPoint

/-- After construction from a valid interface, the protection flag is exactly
"the RSN flags are not zero"; the WPA flags are stored but play no part. -/
theorem create_isProtected (init : WirelessAccessPoint) (iface : AccessPointInterface)
    (hvalid : iface.isValid = true) :
    (create init iface).isProtected = (iface.RsnFlags != 0) ∧
    (create init iface).wpaFlags = iface.WpaFlags ∧
    (create init iface).rsnFlags = iface.RsnFlags := by
  simp [create, hvalid, isProtected, wpaFlags, rsnFlags, setIsProtected, setRsnFlags,
    setWpaFlags, setSignalStrength, setFrequency, setMacAddress, setSsid]

/-- One step of `onPropertiesChanged` keeps the stored strength within 0..100
when the delivered value, if any, is within 0..100. -/
theorem onPropertiesChanged_in_range (ap : WirelessAccessPoint) (p : QVariantMap)
    (hap : 0 ≤ ap.m_signalStrength ∧ ap.m_signalStrength ≤ 100)
    (hp : QVariantMap.contains p "Strength" = true →
      0 ≤ QVariantMap.value p "Strength" ∧ QVariantMap.value p "Strength" ≤ 100) :
    0 ≤ (ap.onPropertiesChanged p).m_signalStrength ∧
      (ap.onPropertiesChanged p).m_signalStrength ≤ 100 := by
  unfold onPropertiesChanged
  by_cases h : QVariantMap.contains p "Strength" = true
  · simp only [h, if_true, setSignalStrength]
    exact hp h
  · simp only [h]
    exact hap

/-- Any sequence of `onPropertiesChanged` events keeps the stored strength
within 0..100 when it starts there and every delivered value is within
0..100. -/
theorem foldl_onPropertiesChanged_in_range (events : List QVariantMap) :
    ∀ (ap : WirelessAccessPoint),
      (0 ≤ ap.m_signalStrength ∧ ap.m_signalStrength ≤ 100) →
      (∀ p ∈ events, QVariantMap.contains p "Strength" = true →
        0 ≤ QVariantMap.value p "Strength" ∧ QVariantMap.value p "Strength" ≤ 100) →
      0 ≤ (events.foldl onPropertiesChanged ap).m_signalStrength ∧
        (events.foldl onPropertiesChanged ap).m_signalStrength ≤ 100 := by
  induction events with
  | nil => intro ap hap _; exact hap
  | cons p rest ih =>
    intro ap hap hev
    rw [List.foldl_cons]
    apply ih
    · exact onPropertiesChanged_in_range ap p hap (hev p (List.mem_cons_self p rest))
    · intro q hq
      exact hev q (List.mem_cons_of_mem p hq)

/-- C7: evaluation of the code at an access point that advertises WPA with a
pre-shared key and no RSN security: the interface is valid, its WPA flags are
0x144 and are stored in the object, and yet `isProtected()` returns false. -/
theorem isProtected_false_for_wpa_only :
    wpaOnlyInterface.isValid = true ∧
    wpaOnlyInterface.WpaFlags = 0x144 ∧
    wpaOnlyInterface.RsnFlags = 0 ∧
    (create blankAccessPoint wpaOnlyInterface).wpaFlags = 0x144 ∧
    (create blankAccessPoint wpaOnlyInterface).isProtected = false := by
  refine ⟨rfl, rfl, rfl, ?_, ?_⟩
  · exact (create_isProtected blankAccessPoint wpaOnlyInterface rfl).2.1
  · rw [(create_isProtected blankAccessPoint wpaOnlyInterface rfl).1]
    rfl

/-- C8, as stated, fails: the access point built from `wpaOnlyInterface` stores
strength 42; an event delivering "Strength" 42 again leaves the stored value at
42 and still emits `signalStrengthChanged` once more. -/
theorem signalStrengthChanged_emitted_without_change :
    (create blankAccessPoint wpaOnlyInterface).signalStrength = 42 ∧
    QVariantMap.contains [("Strength", 42)] "Strength" = true ∧
    QVariantMap.value [("Strength", 42)] "Strength" = 42 ∧
    ((create blankAccessPoint wpaOnlyInterface).onPropertiesChanged
        [("Strength", 42)]).signalStrength = 42 ∧
    ((create blankAccessPoint wpaOnlyInterface).onPropertiesChanged
        [("Strength", 42)]).signalStrengthChangedCount =
      (create blankAccessPoint wpaOnlyInterface).signalStrengthChangedCount + 1 := by
  refine ⟨rfl, by decide, by decide, ?_, ?_⟩
  · have h : QVariantMap.contains [("Strength", 42)] "Strength" = true := by decide
    simp only [onPropertiesChanged, h, if_true, setSignalStrength, signalStrength]
    decide
  · have h : QVariantMap.contains [("Strength", 42)] "Strength" = true := by decide
    simp only [onPropertiesChanged, h, if_true, setSignalStrength, signalStrengthChangedCount,
      List.count_append]
    rfl

/-- C8, amended: every update of the signal strength stores the new value and
emits `signalStrengthChanged` exactly once, whether or not the value differs
from the stored one; `onPropertiesChanged` does so exactly when the event has a
"Strength" entry and otherwise emits nothing and keeps the stored value. -/
theorem signalStrengthChanged_on_every_update (ap : WirelessAccessPoint) (v : Int)
    (properties : QVariantMap) :
    (ap.setSignalStrength v).signalStrength = v ∧
    (ap.setSignalStrength v).emitted =
      ap.emitted ++ [WirelessAccessPointSignal.signalStrengthChanged] ∧
    (ap.setSignalStrength v).signalStrengthChangedCount = ap.signalStrengthChangedCount + 1 ∧
    (ap.onPropertiesChanged properties).signalStrengthChangedCount =
      ap.signalStrengthChangedCount +
        (if QVariantMap.contains properties "Strength" then 1 else 0) ∧
    (ap.onPropertiesChanged properties).signalStrength =
      (if QVariantMap.contains properties "Strength" then QVariantMap.value properties "Strength"
       else ap.signalStrength) := by
  have hcount : (ap.setSignalStrength v).signalStrengthChangedCount =
      ap.signalStrengthChangedCount + 1 := by
    simp [setSignalStrength, signalStrengthChangedCount, List.count_append]
  refine ⟨rfl, rfl, hcount, ?_, ?_⟩
  · by_cases h : QVariantMap.contains properties "Strength" = true
    · simp [onPropertiesChanged, h, setSignalStrength, signalStrengthChangedCount,
        List.count_append]
    · simp [onPropertiesChanged, h]
  · by_cases h : QVariantMap.contains properties "Strength" = true
    · simp [onPropertiesChanged, h, setSignalStrength, signalStrength]
    · simp [onPropertiesChanged, h]

/-- C9, as stated, fails: an access point built from a valid interface whose
"Strength" is 150 reports 150, and an event delivering "Strength" -7 makes it
report -7. -/
theorem signalStrength_out_of_range :
    loudInterface.isValid = true ∧
    (create blankAccessPoint loudInterface).signalStrength = 150 ∧
    ¬ ((create blankAccessPoint loudInterface).signalStrength ≤ 100) ∧
    ((create blankAccessPoint wpaOnlyInterface).onPropertiesChanged
        [("Strength", -7)]).signalStrength = -7 ∧
    ¬ (0 ≤ ((create blankAccessPoint wpaOnlyInterface).onPropertiesChanged
        [("Strength", -7)]).signalStrength) := by
  have h150 : (create blankAccessPoint loudInterface).signalStrength = 150 := rfl
  have hc : QVariantMap.contains [("Strength", -7)] "Strength" = true := by decide
  have hv : QVariantMap.value [("Strength", -7)] "Strength" = -7 := by decide
  have hneg : ((create blankAccessPoint wpaOnlyInterface).onPropertiesChanged
      [("Strength", -7)]).signalStrength = -7 := by
    simp only [onPropertiesChanged, hc, if_true, setSignalStrength, signalStrength, hv]
  refine ⟨rfl, h150, ?_, hneg, ?_⟩
  · rw [h150]; decide
  · rw [hneg]; decide

/-- C9, amended: after construction and any sequence of `onPropertiesChanged`
events the reported strength is within 0..100, provided every delivered
"Strength" value is (the property read by the constructor from a valid
interface, each "Strength" entry of an event) and, for an invalid interface,
the initial value of the member is. -/
theorem signalStrength_in_range (init : WirelessAccessPoint) (iface : AccessPointInterface)
    (events : List QVariantMap)
    (hinit : iface.isValid = false → 0 ≤ init.m_signalStrength ∧ init.m_signalStrength ≤ 100)
    (hiface : iface.isValid = true → 0 ≤ iface.Strength ∧ iface.Strength ≤ 100)
    (hevents : ∀ p ∈ events, QVariantMap.contains p "Strength" = true →
      0 ≤ QVariantMap.value p "Strength" ∧ QVariantMap.value p "Strength" ≤ 100) :
    0 ≤ (events.foldl onPropertiesChanged (create init iface)).signalStrength ∧
      (events.foldl onPropertiesChanged (create init iface)).signalStrength ≤ 100 := by
  have hstart : 0 ≤ (create init iface).m_signalStrength ∧
      (create init iface).m_signalStrength ≤ 100 := by
    cases hv : iface.isValid with
    | false => simpa [create, hv] using hinit hv
    | true =>
      simpa [create, hv, setIsProtected, setRsnFlags, setWpaFlags, setSignalStrength,
        setFrequency, setMacAddress, setSsid] using hiface hv
  exact foldl_onPropertiesChanged_in_range events (create init iface) hstart hevents

/-- Witness for C9: built from `wpaOnlyInterface` (strength 42), then three
events delivering 55, no strength at all, and 100: the reported strength is
100, within 0..100. -/
theorem signalStrength_in_range_witness :
    (wpaOnlyInterface.isValid = true ∧ wpaOnlyInterface.Strength = 42) ∧
    (0 ≤ ([[("Strength", 55)], [("Ssid", 3)], [("Strength", 100)]].foldl onPropertiesChanged
        (create blankAccessPoint wpaOnlyInterface)).signalStrength ∧
     ([[("Strength", 55)], [("Ssid", 3)], [("Strength", 100)]].foldl onPropertiesChanged
        (create blankAccessPoint wpaOnlyInterface)).signalStrength ≤ 100) :=
  ⟨⟨rfl, rfl⟩,
   signalStrength_in_range blankAccessPoint wpaOnlyInterface
    [[("Strength", 55)], [("Ssid", 3)], [("Strength", 100)]]
    (fun h => absurd h (by decide)) (fun _ => by decide) (by decide)⟩
